import Mathlib

/-!
# RobotCodeNew/PinDefines.h

The header is a list of preprocessor lines: four override flags, followed by
four `#ifdef` blocks (motor, relay, task sensors, QTR line sensors).  It is
embedded here as data (`header`) together with the fragment of the C
preprocessor it uses (`step`, `run`): `#define`, `#ifdef`, `#endif`, and
pass-through of the array definitions that sit inside an `#ifdef` block.

A flag is toggled the way the header's own comment says: by commenting out
its `#define` line.  `Flags` records which of the four lines are left in.
-/

namespace PinDefines

/-- Every name the header can `#define`. -/
inductive Macro
  | OVERWRITE_MOTOR_PINS
  | OVERWRITE_RELAY_PINS
  | OVERWRITE_TASK_PINS
  | OVERWRITE_QTR_PINS
  | LEFT_PWM_PIN
  | LEFT_DIR_PIN
  | LEFT_EN_PIN
  | RIGHT_PWM_PIN
  | RIGHT_DIR_PIN
  | RIGHT_EN_PIN
  | RELAY_K1_PIN
  | RELAY_K2_PIN
  | HIT_SWITCH_PIN
  | PIN_CR1
  | PIN_CR2
  | PIN_CR3
  | PIN_VOLT
  | PIN_TEMP
  | PIN_RD
  | PIN_INT
  | PIN_CS
  deriving DecidableEq, Repr, Fintype

/-- The three `unsigned char` arrays the header can define. -/
inductive ArrayName
  | fSensorPins
  | lEncoderPins
  | rEncoderPins
  deriving DecidableEq, Repr, Fintype

/-- A token of a macro body: an integer literal, or one of the identifiers
`A0`, `A1`, ... (the board's names for its analog inputs, which this header
uses but does not define). -/
inductive Tok
  | num (n : Nat)
  | A (k : Nat)
  deriving DecidableEq, Repr

/-- A physical pin: digital pin `n`, or analog input `k`. -/
inductive Pin
  | digital (n : Nat)
  | analog (k : Nat)
  deriving DecidableEq, Repr

/-- The pin a body token names. -/
def Tok.pin : Tok → Pin
  | .num n => .digital n
  | .A k => .analog k

/-- One line of the header, comments stripped. -/
inductive Line
  /-- a blank line or a line holding only a `//` comment -/
  | comment
  /-- `#define m body` -/
  | define (m : Macro) (body : List Tok)
  /-- `#ifdef m` -/
  | ifdef (m : Macro)
  /-- `#endif` -/
  | endif
  /-- `unsigned char a[] = {init};` -/
  | array (a : ArrayName) (init : List Nat)
  deriving DecidableEq, Repr

/-- Which of the four `#define OVERWRITE_*` lines are left uncommented. -/
structure Flags where
  motor : Bool
  relay : Bool
  task : Bool
  qtr : Bool
  deriving DecidableEq, Repr, Fintype

/-- The header as committed: all four flag lines are present. -/
def shipped : Flags := ⟨true, true, true, true⟩

/-- A flag line: the `#define` when kept, a comment line when commented out. -/
def flagLine (keep : Bool) (m : Macro) : Line :=
  if keep then .define m [] else .comment

/-- The lines of `PinDefines.h`, in file order. -/
def header (f : Flags) : List Line :=
  [ .comment,                                     -- // --- Pin Overwrites ---
    .comment,                                     -- // Comment out if you plan on using ...
    flagLine f.motor .OVERWRITE_MOTOR_PINS,       -- #define OVERWRITE_MOTOR_PINS
    flagLine f.relay .OVERWRITE_RELAY_PINS,       -- #define OVERWRITE_RELAY_PINS
    flagLine f.task .OVERWRITE_TASK_PINS,         -- #define OVERWRITE_TASK_PINS
    flagLine f.qtr .OVERWRITE_QTR_PINS,           -- #define OVERWRITE_QTR_PINS
    .comment,
    .comment,                                     -- // --- Motor Pin Definitions ---
    .ifdef .OVERWRITE_MOTOR_PINS,
    .define .LEFT_PWM_PIN [.num 5],
    .define .LEFT_DIR_PIN [.num 38],
    .define .LEFT_EN_PIN [.num 36],
    .define .RIGHT_PWM_PIN [.num 2],
    .define .RIGHT_DIR_PIN [.num 3],
    .define .RIGHT_EN_PIN [.num 4],
    .endif,
    .comment,
    .comment,                                     -- // --- Relay Pin Definitions ---
    .ifdef .OVERWRITE_RELAY_PINS,
    .define .RELAY_K1_PIN [.num 52],
    .define .RELAY_K2_PIN [.num 53],
    .endif,
    .comment,
    .comment,                                     -- // --- Task Sensor Pin Definitions ---
    .ifdef .OVERWRITE_TASK_PINS,
    .comment,                                     -- // Hit switch pins:
    .define .HIT_SWITCH_PIN [.num 40],
    .comment,                                     -- // Capcitance sensor pins:
    .define .PIN_CR1 [.A 1],
    .define .PIN_CR2 [.A 2],
    .define .PIN_CR3 [.A 3],
    .comment,                                     -- // Voltage sensor pins:
    .define .PIN_VOLT [.A 0],
    .comment,                                     -- // Temperature sensor pins:
    .define .PIN_TEMP [.num 11],
    .comment,                                     -- // Waveform sensor pins (D0-D7 also used, PORTB):
    .define .PIN_RD [.num 8],
    .define .PIN_INT [.num 9],
    .define .PIN_CS [.num 10],
    .endif,
    .comment,
    .comment,                                     -- // --- QTR Sensor Pin Definitions ---
    .ifdef .OVERWRITE_QTR_PINS,
    .array .fSensorPins [12, 11, 10, 9, 8, 7, 6, 33, 35, 37, 39, 41, 43, 45],
    .array .lEncoderPins [46],
    .array .rEncoderPins [48],
    .endif ]

/-- Preprocessor state: the macro table (latest definition first), the stack
of open conditionals (innermost first), and the arrays defined so far. -/
structure State where
  macros : List (Macro × List Tok)
  conds : List Bool
  arrays : List (ArrayName × List Nat)
  deriving DecidableEq, Repr

/-- The body `m` is currently defined to, if any. -/
def State.lookup (s : State) (m : Macro) : Option (List Tok) :=
  s.macros.lookup m

/-- The test of `#ifdef m`. -/
def State.defined (s : State) (m : Macro) : Bool :=
  (s.lookup m).isSome

/-- The contents of array `a`, if it has been defined. -/
def State.array (s : State) (a : ArrayName) : Option (List Nat) :=
  s.arrays.lookup a

/-- A line is live when every enclosing conditional holds. -/
def State.active (s : State) : Bool :=
  s.conds.all id

/-- Conversion of an initialiser to `unsigned char`. -/
def toUChar (n : Nat) : Nat := n % 2 ^ 8

/-- Process one line. -/
def step (s : State) : Line → State
  | .comment => s
  | .define m body =>
      if s.active then { s with macros := (m, body) :: s.macros } else s
  | .ifdef m => { s with conds := s.defined m :: s.conds }
  | .endif => { s with conds := s.conds.tail }
  | .array a init =>
      if s.active then { s with arrays := s.arrays ++ [(a, init.map toUChar)] } else s

/-- Process a list of lines, starting with nothing defined. -/
def run (ls : List Line) : State :=
  ls.foldl step ⟨[], [], []⟩

/-- The header preprocessed on its own under flag configuration `f`. -/
def preprocess (f : Flags) : State :=
  run (header f)

/-- The pin a scalar symbol resolves to: its body, when that is one token. -/
def State.resolve (s : State) (m : Macro) : Option Pin :=
  match s.lookup m with
  | some [t] => some t.pin
  | _ => none

/-- The four pin groups. -/
inductive Group
  | motor
  | relay
  | task
  | qtr
  deriving DecidableEq, Repr, Fintype

/-- The override flag of a group. -/
def Group.flagName : Group → Macro
  | .motor => .OVERWRITE_MOTOR_PINS
  | .relay => .OVERWRITE_RELAY_PINS
  | .task => .OVERWRITE_TASK_PINS
  | .qtr => .OVERWRITE_QTR_PINS

/-- Whether the flag line of a group is present in configuration `f`. -/
def Flags.flag (f : Flags) : Group → Bool
  | .motor => f.motor
  | .relay => f.relay
  | .task => f.task
  | .qtr => f.qtr

/-- The scalar symbols written inside a group's `#ifdef` block. -/
def Group.macros : Group → List Macro
  | .motor => [.LEFT_PWM_PIN, .LEFT_DIR_PIN, .LEFT_EN_PIN,
               .RIGHT_PWM_PIN, .RIGHT_DIR_PIN, .RIGHT_EN_PIN]
  | .relay => [.RELAY_K1_PIN, .RELAY_K2_PIN]
  | .task => [.HIT_SWITCH_PIN, .PIN_CR1, .PIN_CR2, .PIN_CR3, .PIN_VOLT,
              .PIN_TEMP, .PIN_RD, .PIN_INT, .PIN_CS]
  | .qtr => []

/-- The arrays written inside a group's `#ifdef` block. -/
def Group.arrays : Group → List ArrayName
  | .qtr => [.fSensorPins, .lEncoderPins, .rEncoderPins]
  | _ => []

/-- The number of roles a group has when overridden: 6 motor pins, 2 relay
pins, 9 task-sensor pins, and 14 line sensors plus one entry per encoder. -/
def Group.roleCount : Group → Nat
  | .motor => 6
  | .relay => 2
  | .task => 9
  | .qtr => 14 + 1 + 1

/-- A role: a scalar symbol, or one position of an array. -/
inductive Role
  | sym (m : Macro)
  | elem (a : ArrayName) (i : Nat)
  deriving DecidableEq, Repr

/-- The array a role is a position of, if it is one. -/
def Role.arrayName : Role → Option ArrayName
  | .sym _ => none
  | .elem a _ => some a

/-- Entry `i` of array `a`, as in the C expression `a[i]`. -/
def State.arrayElem (s : State) (a : ArrayName) (i : Nat) : Option Nat :=
  (s.array a).bind fun xs => xs[i]?

/-- The pins of array `a`, each with its position. -/
def State.arrayRoles (s : State) (a : ArrayName) : List (Role × Pin) :=
  match s.array a with
  | some xs => xs.enum.map fun (i, x) => (Role.elem a i, Pin.digital x)
  | none => []

/-- Every role of group `g` that is defined in `s`, with its pin. -/
def State.groupRoles (s : State) (g : Group) : List (Role × Pin) :=
  (g.macros.filterMap fun m => (s.resolve m).map fun p => (Role.sym m, p))
    ++ g.arrays.flatMap s.arrayRoles

/-- The pins used by group `g` in `s`. -/
def State.groupPins (s : State) (g : Group) : List Pin :=
  (s.groupRoles g).map Prod.snd

/-- Every defined role of every group, tagged with its group. -/
def State.allRoles (s : State) : List (Group × Role × Pin) :=
  [Group.motor, .relay, .task, .qtr].flatMap fun g => (s.groupRoles g).map fun rp => (g, rp)

/-- All pairs of roles from different groups that sit on the same pin. -/
def State.collisions (s : State) : List ((Group × Role × Pin) × (Group × Role × Pin)) :=
  s.allRoles.flatMap fun x =>
    (s.allRoles.filter fun y => decide (x.1 ≠ y.1) && decide (x.2.2 = y.2.2)).map fun y => (x, y)

/-! ## Helper facts -/

/-- The test of each `#ifdef` in the header sees exactly the flag line above it. -/
theorem defined_flag (f : Flags) (g : Group) :
    (preprocess f).defined g.flagName = f.flag g := by
  rcases f with ⟨_ | _, _ | _, _ | _, _ | _⟩ <;> cases g <;> rfl

/-- A group whose flag line is present gets what it gets in the shipped header,
whatever the other three flags are. -/
theorem present_as_shipped (f : Flags) (g : Group) (h : f.flag g = true) :
    (∀ m ∈ g.macros, (preprocess f).lookup m = (preprocess shipped).lookup m) ∧
    (∀ a ∈ g.arrays, (preprocess f).array a = (preprocess shipped).array a) ∧
    (preprocess f).groupRoles g = (preprocess shipped).groupRoles g := by
  rcases f with ⟨_ | _, _ | _, _ | _, _ | _⟩ <;> cases g <;>
    first
    | exact absurd h (by decide)
    | decide

/-- A group whose flag line is commented out gets nothing, whatever the other
three flags are. -/
theorem absent_as_empty (f : Flags) (g : Group) (h : f.flag g = false) :
    (∀ m ∈ g.macros, (preprocess f).lookup m = none) ∧
    (∀ a ∈ g.arrays, (preprocess f).array a = none) ∧
    (preprocess f).groupRoles g = [] := by
  rcases f with ⟨_ | _, _ | _, _ | _, _ | _⟩ <;> cases g <;>
    first
    | exact absurd h (by decide)
    | decide

/-- Membership in two lists at once is membership in the first filtered by the second. -/
theorem mem_both_iff {α : Type} [DecidableEq α] (l₁ l₂ : List α) (p : α) :
    (p ∈ l₁ ∧ p ∈ l₂) ↔ p ∈ l₁.filter (fun q => decide (q ∈ l₂)) := by
  simp [List.mem_filter]

/-- The pins used by both the task-sensor and the line-sensor group, in the order
of the task-sensor block. -/
theorem task_filter_qtr (f : Flags) (ht : f.task = true) (hq : f.qtr = true) :
    ((preprocess f).groupPins .task).filter
        (fun p => decide (p ∈ (preprocess f).groupPins .qtr)) =
      [Pin.digital 11, Pin.digital 8, Pin.digital 9, Pin.digital 10] := by
  rcases f with ⟨_ | _, _ | _, _ | _, _ | _⟩ <;>
    first
    | exact absurd ht (by decide)
    | exact absurd hq (by decide)
    | decide

/-! ## Claims -/

/-- C1: in every flag configuration, when a group's override flag is present each
scalar symbol of that group is defined to the literal written in the table:
the six motor pins 5, 38, 36, 2, 3, 4; the relay pins 52, 53; and the task
pins 40, A1, A2, A3, A0, 11, 8, 9, 10, where A0..A3 are analog-pin tokens and
the others digital integers. -/
theorem scalar_symbols_resolve (f : Flags) :
    (f.motor = true →
      (preprocess f).lookup .LEFT_PWM_PIN = some [.num 5] ∧
      (preprocess f).lookup .LEFT_DIR_PIN = some [.num 38] ∧
      (preprocess f).lookup .LEFT_EN_PIN = some [.num 36] ∧
      (preprocess f).lookup .RIGHT_PWM_PIN = some [.num 2] ∧
      (preprocess f).lookup .RIGHT_DIR_PIN = some [.num 3] ∧
      (preprocess f).lookup .RIGHT_EN_PIN = some [.num 4]) ∧
    (f.relay = true →
      (preprocess f).lookup .RELAY_K1_PIN = some [.num 52] ∧
      (preprocess f).lookup .RELAY_K2_PIN = some [.num 53]) ∧
    (f.task = true →
      (preprocess f).lookup .HIT_SWITCH_PIN = some [.num 40] ∧
      (preprocess f).lookup .PIN_CR1 = some [.A 1] ∧
      (preprocess f).lookup .PIN_CR2 = some [.A 2] ∧
      (preprocess f).lookup .PIN_CR3 = some [.A 3] ∧
      (preprocess f).lookup .PIN_VOLT = some [.A 0] ∧
      (preprocess f).lookup .PIN_TEMP = some [.num 11] ∧
      (preprocess f).lookup .PIN_RD = some [.num 8] ∧
      (preprocess f).lookup .PIN_INT = some [.num 9] ∧
      (preprocess f).lookup .PIN_CS = some [.num 10] ∧
      (preprocess f).resolve .PIN_CR1 = some (.analog 1) ∧
      (preprocess f).resolve .PIN_CR2 = some (.analog 2) ∧
      (preprocess f).resolve .PIN_CR3 = some (.analog 3) ∧
      (preprocess f).resolve .PIN_VOLT = some (.analog 0)) := by
  rcases f with ⟨_ | _, _ | _, _ | _, _ | _⟩ <;> refine ⟨?_, ?_, ?_⟩ <;> intro h <;>
    first
    | exact absurd h (by decide)
    | ((repeat' apply And.intro) <;> rfl)

/-- Witness for C1: the shipped configuration has the motor, relay and task
flags present, and there the symbols hold the table's literals. -/
theorem scalar_symbols_resolve_witness :
    (shipped.motor = true ∧ shipped.relay = true ∧ shipped.task = true) ∧
    (preprocess shipped).lookup .LEFT_PWM_PIN = some [.num 5] ∧
    (preprocess shipped).lookup .RELAY_K2_PIN = some [.num 53] ∧
    (preprocess shipped).lookup .PIN_VOLT = some [.A 0] :=
  ⟨⟨rfl, rfl, rfl⟩,
   ((scalar_symbols_resolve shipped).1 rfl).1,
   ((scalar_symbols_resolve shipped).2.1 rfl).2,
   ((scalar_symbols_resolve shipped).2.2 rfl).2.2.2.2.1⟩

/-- C2: when the QTR flag is present, `fSensorPins` holds exactly the 14 values
12, 11, 10, 9, 8, 7, 6, 33, 35, 37, 39, 41, 43, 45 in this order; these are the
initialisers as written in the header (conversion to `unsigned char` changes
none of them), and each lies in the digital pin range 0..53. -/
theorem fSensorPins_entries (f : Flags) (h : f.qtr = true) :
    ∃ xs : List Nat,
      (preprocess f).array .fSensorPins = some xs ∧
      xs = [12, 11, 10, 9, 8, 7, 6, 33, 35, 37, 39, 41, 43, 45] ∧
      xs.length = 14 ∧
      Line.array .fSensorPins xs ∈ header f ∧
      ∀ x ∈ xs, x ≤ 53 ∧ x < 2 ^ 8 := by
  refine ⟨[12, 11, 10, 9, 8, 7, 6, 33, 35, 37, 39, 41, 43, 45], ?_, rfl, rfl, ?_, by decide⟩
  · rcases f with ⟨_ | _, _ | _, _ | _, _ | _⟩ <;> first | rfl | cases h
  · simp [header]

/-- Witness for C2 at the shipped configuration. -/
theorem fSensorPins_entries_witness :
    shipped.qtr = true ∧
    ∃ xs : List Nat,
      (preprocess shipped).array .fSensorPins = some xs ∧
      xs = [12, 11, 10, 9, 8, 7, 6, 33, 35, 37, 39, 41, 43, 45] ∧
      xs.length = 14 ∧
      Line.array .fSensorPins xs ∈ header shipped ∧
      ∀ x ∈ xs, x ≤ 53 ∧ x < 2 ^ 8 :=
  ⟨rfl, fSensorPins_entries shipped rfl⟩

/-- C3: when the QTR flag is present, `lEncoderPins` and `rEncoderPins` each have
exactly one entry, 46 and 48 respectively. -/
theorem encoderPins_entries (f : Flags) (h : f.qtr = true) :
    (∃ xs, (preprocess f).array .lEncoderPins = some xs ∧ xs.length = 1 ∧ xs = [46]) ∧
    (∃ ys, (preprocess f).array .rEncoderPins = some ys ∧ ys.length = 1 ∧ ys = [48]) := by
  refine ⟨⟨[46], ?_, rfl, rfl⟩, ⟨[48], ?_, rfl, rfl⟩⟩ <;>
    rcases f with ⟨_ | _, _ | _, _ | _, _ | _⟩ <;> first | rfl | cases h

/-- Witness for C3 at the shipped configuration. -/
theorem encoderPins_entries_witness :
    shipped.qtr = true ∧
    (∃ xs, (preprocess shipped).array .lEncoderPins = some xs ∧ xs.length = 1 ∧ xs = [46]) ∧
    (∃ ys, (preprocess shipped).array .rEncoderPins = some ys ∧ ys.length = 1 ∧ ys = [48]) :=
  ⟨rfl, encoderPins_entries shipped rfl⟩

/-- C4: in every flag configuration, a group whose override flag is absent gets
nothing from this table: its `#ifdef` test fails, none of its scalar symbols is
defined, none of its arrays is defined, and so no role of the group resolves to
a pin taken from this table. -/
theorem absent_flag_defines_nothing (f : Flags) (g : Group) (h : f.flag g = false) :
    (preprocess f).defined g.flagName = false ∧
    (∀ m ∈ g.macros, (preprocess f).lookup m = none ∧ (preprocess f).resolve m = none) ∧
    (∀ a ∈ g.arrays, (preprocess f).array a = none) ∧
    (preprocess f).groupRoles g = [] := by
  rcases f with ⟨_ | _, _ | _, _ | _, _ | _⟩ <;> cases g <;>
    first
    | exact absurd h (by decide)
    | decide

/-- Witness for C4: with only the motor flag line commented out, the motor group
gets nothing from the table. -/
theorem absent_flag_defines_nothing_witness :
    Flags.flag ⟨false, true, true, true⟩ .motor = false ∧
    (preprocess ⟨false, true, true, true⟩).defined Group.motor.flagName = false ∧
    (∀ m ∈ Group.motor.macros,
      (preprocess ⟨false, true, true, true⟩).lookup m = none ∧
      (preprocess ⟨false, true, true, true⟩).resolve m = none) ∧
    (∀ a ∈ Group.motor.arrays, (preprocess ⟨false, true, true, true⟩).array a = none) ∧
    (preprocess ⟨false, true, true, true⟩).groupRoles .motor = [] :=
  ⟨rfl, absent_flag_defines_nothing ⟨false, true, true, true⟩ .motor rfl⟩

/-- C5: if two flag configurations differ at most in the flag of one group `g`,
then every scalar symbol and every array of every other group resolves
identically (same definition, or undefined in both) in the two configurations. -/
theorem groups_independent (f f' : Flags) (g : Group)
    (h : ∀ g', g' ≠ g → f.flag g' = f'.flag g') :
    ∀ g', g' ≠ g →
      (∀ m ∈ g'.macros, (preprocess f).lookup m = (preprocess f').lookup m) ∧
      (∀ a ∈ g'.arrays, (preprocess f).array a = (preprocess f').array a) ∧
      (preprocess f).groupRoles g' = (preprocess f').groupRoles g' := by
  have key : ∀ (x y : Flags) (k : Group), x.flag k = y.flag k →
      (∀ m ∈ k.macros, (preprocess x).lookup m = (preprocess y).lookup m) ∧
      (∀ a ∈ k.arrays, (preprocess x).array a = (preprocess y).array a) ∧
      (preprocess x).groupRoles k = (preprocess y).groupRoles k := by
    intro x y k hk
    cases hx : x.flag k with
    | false =>
      have hy : y.flag k = false := by rw [← hk, hx]
      obtain ⟨x1, x2, x3⟩ := absent_as_empty x k hx
      obtain ⟨y1, y2, y3⟩ := absent_as_empty y k hy
      exact ⟨fun m hm => (x1 m hm).trans (y1 m hm).symm,
        fun a ha => (x2 a ha).trans (y2 a ha).symm, x3.trans y3.symm⟩
    | true =>
      have hy : y.flag k = true := by rw [← hk, hx]
      obtain ⟨x1, x2, x3⟩ := present_as_shipped x k hx
      obtain ⟨y1, y2, y3⟩ := present_as_shipped y k hy
      exact ⟨fun m hm => (x1 m hm).trans (y1 m hm).symm,
        fun a ha => (x2 a ha).trans (y2 a ha).symm, x3.trans y3.symm⟩
  intro g' hg'
  exact key f f' g' (h g' hg')

/-- Witness for C5: toggling the motor flag of the shipped header leaves the
relay, task and QTR groups as they were. -/
theorem groups_independent_witness :
    (∀ g', g' ≠ Group.motor → shipped.flag g' = Flags.flag ⟨false, true, true, true⟩ g') ∧
    ∀ g', g' ≠ Group.motor →
      (∀ m ∈ g'.macros,
        (preprocess shipped).lookup m = (preprocess ⟨false, true, true, true⟩).lookup m) ∧
      (∀ a ∈ g'.arrays,
        (preprocess shipped).array a = (preprocess ⟨false, true, true, true⟩).array a) ∧
      (preprocess shipped).groupRoles g' = (preprocess ⟨false, true, true, true⟩).groupRoles g' :=
  ⟨by decide, groups_independent shipped ⟨false, true, true, true⟩ .motor (by decide)⟩

/-- C6: in every flag configuration, inside each group whose override is active
no two roles sit on the same physical pin: the 6 motor pins, the 2 relay pins,
the 9 task-sensor pins (A0..A3 being analog pins, distinct from the digital
ones) and the 16 line-sensor entries (14 of `fSensorPins` and the two encoder
entries) are pairwise distinct. -/
theorem group_pins_distinct (f : Flags) (g : Group) (h : f.flag g = true) :
    ((preprocess f).groupPins g).Nodup ∧
    ((preprocess f).groupPins g).length = g.roleCount := by
  rcases f with ⟨_ | _, _ | _, _ | _, _ | _⟩ <;> cases g <;>
    first
    | exact absurd h (by decide)
    | decide

/-- Witness for C6: the line-sensor group of the shipped header. -/
theorem group_pins_distinct_witness :
    shipped.flag .qtr = true ∧
    ((preprocess shipped).groupPins .qtr).Nodup ∧
    ((preprocess shipped).groupPins .qtr).length = 14 + 1 + 1 ∧
    Group.motor.roleCount = 6 ∧ Group.relay.roleCount = 2 ∧ Group.task.roleCount = 9 :=
  ⟨rfl, (group_pins_distinct shipped .qtr rfl).1, (group_pins_distinct shipped .qtr rfl).2,
    rfl, rfl, rfl⟩

/-- C7: in every flag configuration and for each of the four groups, either the
flag is present and every role of the group is defined (all 6 motor symbols,
both relay symbols, all 9 task symbols, all 3 line-sensor arrays), or the flag
is absent and none of them is; no configuration defines part of a group. -/
theorem whole_group_override (f : Flags) (g : Group) :
    ((f.flag g = true ∧
        (∀ m ∈ g.macros, ((preprocess f).resolve m).isSome = true) ∧
        (∀ a ∈ g.arrays, ((preprocess f).array a).isSome = true)) ∨
      (f.flag g = false ∧
        (∀ m ∈ g.macros, (preprocess f).lookup m = none) ∧
        (∀ a ∈ g.arrays, (preprocess f).array a = none))) ∧
    (Group.motor.macros.length = 6 ∧ Group.relay.macros.length = 2 ∧
      Group.task.macros.length = 9 ∧ Group.qtr.arrays.length = 3) := by
  refine ⟨?_, by decide⟩
  rcases f with ⟨_ | _, _ | _, _ | _, _ | _⟩ <;> cases g <;> decide

/-- C8, as stated, fails on the shipped header: `PIN_RD` is 8 but the first
element of `fSensorPins` is not 8. -/
theorem pin8_first_element_counterexample :
    shipped.task = true ∧ shipped.qtr = true ∧
    ¬ ((preprocess shipped).resolve .PIN_RD = some (.digital 8) ∧
        (preprocess shipped).arrayElem .fSensorPins 0 = some 8) := by
  decide

/-- C8 amended: with the task-sensor and line-sensor overrides both active,
pin 8 is assigned to both `PIN_RD` and the fifth element of `fSensorPins`:
`PIN_RD = 8` and `fSensorPins[4] = 8`, while `fSensorPins[0] = 12`. -/
theorem pin8_shared (f : Flags) (ht : f.task = true) (hq : f.qtr = true) :
    (preprocess f).resolve .PIN_RD = some (.digital 8) ∧
    (preprocess f).arrayElem .fSensorPins 4 = some 8 ∧
    (preprocess f).arrayElem .fSensorPins 0 = some 12 ∧
    (Role.elem .fSensorPins 4, Pin.digital 8) ∈ (preprocess f).groupRoles .qtr ∧
    (Role.sym .PIN_RD, Pin.digital 8) ∈ (preprocess f).groupRoles .task := by
  rcases f with ⟨_ | _, _ | _, _ | _, _ | _⟩ <;>
    first
    | exact absurd ht (by decide)
    | exact absurd hq (by decide)
    | decide

/-- Witness for the amended C8 at the shipped configuration. -/
theorem pin8_shared_witness :
    shipped.task = true ∧ shipped.qtr = true ∧
    (preprocess shipped).resolve .PIN_RD = some (.digital 8) ∧
    (preprocess shipped).arrayElem .fSensorPins 4 = some 8 ∧
    (preprocess shipped).arrayElem .fSensorPins 0 = some 12 :=
  ⟨rfl, rfl, (pin8_shared shipped rfl rfl).1, (pin8_shared shipped rfl rfl).2.1,
    (pin8_shared shipped rfl rfl).2.2.1⟩

/-- C9: with the task-sensor and line-sensor overrides both active, the pins
assigned both to a task-sensor role and to an entry of the line-sensor group
are exactly digital 8, 9, 10 and 11: `PIN_RD`, `PIN_INT`, `PIN_CS` and
`PIN_TEMP` each coincide with an entry of `fSensorPins`, and `HIT_SWITCH_PIN`,
`PIN_CR1`, `PIN_CR2`, `PIN_CR3`, `PIN_VOLT` coincide with no line-sensor entry. -/
theorem task_qtr_overlap (f : Flags) (ht : f.task = true) (hq : f.qtr = true) :
    (∀ p : Pin, (p ∈ (preprocess f).groupPins .task ∧ p ∈ (preprocess f).groupPins .qtr) ↔
      p ∈ [Pin.digital 8, Pin.digital 9, Pin.digital 10, Pin.digital 11]) ∧
    (∀ m ∈ [Macro.PIN_RD, Macro.PIN_INT, Macro.PIN_CS, Macro.PIN_TEMP],
      ∃ p ∈ ((preprocess f).arrayRoles .fSensorPins).map Prod.snd,
        (preprocess f).resolve m = some p) ∧
    (∀ m ∈ [Macro.HIT_SWITCH_PIN, Macro.PIN_CR1, Macro.PIN_CR2, Macro.PIN_CR3, Macro.PIN_VOLT],
      ((preprocess f).resolve m).isSome = true ∧
      ∀ p ∈ (preprocess f).groupPins .qtr, (preprocess f).resolve m ≠ some p) := by
  refine ⟨?_, ?_, ?_⟩
  · intro p
    rw [mem_both_iff, task_filter_qtr f ht hq]
    simp only [List.mem_cons, List.mem_singleton, List.not_mem_nil, or_false]
    tauto
  · rcases f with ⟨_ | _, _ | _, _ | _, _ | _⟩ <;>
      first
      | exact absurd ht (by decide)
      | exact absurd hq (by decide)
      | decide
  · rcases f with ⟨_ | _, _ | _, _ | _, _ | _⟩ <;>
      first
      | exact absurd ht (by decide)
      | exact absurd hq (by decide)
      | decide

/-- Witness for C9 at the shipped configuration. -/
theorem task_qtr_overlap_witness :
    shipped.task = true ∧ shipped.qtr = true ∧
    (∀ p : Pin,
      (p ∈ (preprocess shipped).groupPins .task ∧ p ∈ (preprocess shipped).groupPins .qtr) ↔
        p ∈ [Pin.digital 8, Pin.digital 9, Pin.digital 10, Pin.digital 11]) :=
  ⟨rfl, rfl, (task_qtr_overlap shipped rfl rfl).1⟩

/-- C10: the header as shipped has all four flag lines, so all 20 symbols (17
scalar symbols and 3 arrays) are defined; the motor pins 5, 38, 36, 2, 3, 4, the
relay pins 52, 53 and the encoder pins 46, 48 each occur exactly once among
all roles of all groups; and every pin shared between two groups is shared
between a task-sensor symbol and an entry of `fSensorPins`. -/
theorem shipped_unique_pins :
    (∀ g : Group, Line.define g.flagName [] ∈ header shipped ∧
      (preprocess shipped).defined g.flagName = true) ∧
    (∀ g : Group, (∀ m ∈ g.macros, ((preprocess shipped).resolve m).isSome = true) ∧
      (∀ a ∈ g.arrays, ((preprocess shipped).array a).isSome = true)) ∧
    (([Group.motor, .relay, .task, .qtr].map fun g => g.macros.length + g.arrays.length).sum
      = 20) ∧
    (preprocess shipped).groupPins .motor =
      [.digital 5, .digital 38, .digital 36, .digital 2, .digital 3, .digital 4] ∧
    (preprocess shipped).groupPins .relay = [.digital 52, .digital 53] ∧
    (preprocess shipped).array .lEncoderPins = some [46] ∧
    (preprocess shipped).array .rEncoderPins = some [48] ∧
    (∀ n ∈ [5, 38, 36, 2, 3, 4, 52, 53, 46, 48],
      ((preprocess shipped).allRoles.map fun x => x.2.2).count (Pin.digital n) = 1) ∧
    (preprocess shipped).collisions ≠ [] ∧
    (∀ c ∈ (preprocess shipped).collisions,
      (c.1.1 = .task ∧ c.2.1 = .qtr ∧ c.2.2.1.arrayName = some .fSensorPins) ∨
      (c.1.1 = .qtr ∧ c.1.2.1.arrayName = some .fSensorPins ∧ c.2.1 = .task)) := by
  refine ⟨?_, ?_, ?_, ?_, ?_, ?_, ?_, ?_, ?_, ?_⟩ <;> decide

end PinDefines
